import Mathlib

/-!
Verification of the line-secretary ingestion and normalization pipeline
(`src/app.py`) against its natural-language specification.

The Python source is shallowly embedded: pure helpers become Lean functions
over `String` / `List Char` / `List Nat` (bytes), and the per-event webhook
handlers become functions from explicit oracle records (one field per
external collaborator: LINE blob download, Google Drive upload, model calls,
Apify scrape, HTTP fetch) to the pair of persisted Notion pages and the
user-facing reply.  External library calls (model, JSON decoding via
`json.loads`, codec decoding) are parameters, so theorems quantify over
their behaviour.
-/

namespace LineSecretary

instance {ε α : Type} [DecidableEq ε] [DecidableEq α] : DecidableEq (Except ε α) :=
  fun a b =>
    match a, b with
    | .ok x, .ok y =>
      if h : x = y then .isTrue (by rw [h]) else .isFalse (by simp [h])
    | .error x, .error y =>
      if h : x = y then .isTrue (by rw [h]) else .isFalse (by simp [h])
    | .ok _, .error _ => .isFalse (by simp)
    | .error _, .ok _ => .isFalse (by simp)

/-! ## Python string primitives

`pyIsSpace` is the character class of Python's `str.isspace` /
`str.strip()` / `str.split()` (Unicode whitespace). -/

def pyIsSpace (c : Char) : Bool :=
  let n := c.toNat
  (0x09 ≤ n && n ≤ 0x0d) || (0x1c ≤ n && n ≤ 0x1f) || n = 0x20 ||
  n = 0x85 || n = 0xa0 || n = 0x1680 || (0x2000 ≤ n && n ≤ 0x200a) ||
  n = 0x2028 || n = 0x2029 || n = 0x202f || n = 0x205f || n = 0x3000

/-- Python `s.strip()` on a character list. -/
def pyStripL (l : List Char) : List Char :=
  ((l.dropWhile pyIsSpace).reverse.dropWhile pyIsSpace).reverse

/-- Python `s.strip()`. -/
def pyStripS (s : String) : String :=
  String.mk (pyStripL s.toList)

/-- Bool-valued substring test (Python's `pat in s`) on character lists. -/
def isSubstrL (pat : List Char) : List Char → Bool
  | [] => pat.isEmpty
  | c :: cs => pat.isPrefixOf (c :: cs) || isSubstrL pat cs

/-- Bool-valued substring test (Python's `pat in s`). -/
def isSubstrS (pat s : String) : Bool :=
  isSubstrL pat.toList s.toList

/-- Fuel-indexed body of Python `s.split(sep)`; every step strictly shortens
the list (for the nonempty separators the source uses), so fuel equal to the
list length is never exhausted.  Structural recursion keeps the function
kernel-computable. -/
def pySplitF (sep : List Char) : Nat → List Char → List (List Char)
  | _, [] => [[]]
  | 0, l => [l]
  | fuel + 1, c :: cs =>
    if sep ≠ [] ∧ sep.isPrefixOf (c :: cs) then
      [] :: pySplitF sep fuel ((c :: cs).drop sep.length)
    else
      match pySplitF sep fuel cs with
      | [] => [[c]]
      | hd :: tl => (c :: hd) :: tl

/-- Python `s.split(sep)` (with a maxsplit of none) on character lists. -/
def pySplitL (sep l : List Char) : List (List Char) :=
  pySplitF sep l.length l

/-- Fuel-indexed body of Python's argumentless `s.split()`. -/
def pySplitWSF : Nat → List Char → List (List Char)
  | _, [] => []
  | 0, l => [l]
  | fuel + 1, c :: cs =>
    if pyIsSpace c then pySplitWSF fuel cs
    else (c :: cs.takeWhile (fun d => ! pyIsSpace d)) ::
         pySplitWSF fuel (cs.dropWhile (fun d => ! pyIsSpace d))

/-- Python argumentless `s.split()`: split on whitespace runs, no empties. -/
def pySplitWS (l : List Char) : List (List Char) :=
  pySplitWSF l.length l

/-! ## `is_chinese_text` (src/app.py lines 72-81)

The source computes `chinese_chars / total_chars > 0.2` on Python numbers;
the ratio is embedded with exact rational arithmetic. -/

/-- `sum(1 for c in text if '一' <= c <= '鿿')` -/
def chinese_chars (text : String) : Nat :=
  text.toList.countP (fun c => decide (0x4e00 ≤ c.toNat ∧ c.toNat ≤ 0x9fff))

/-- `sum(1 for c in text if not c.isspace())` -/
def total_chars (text : String) : Nat :=
  text.toList.countP (fun c => ! pyIsSpace c)

/-- `is_chinese_text` from src/app.py: the zero-denominator guard, then the
20%-ratio test on CJK Unified Ideographs against non-whitespace characters. -/
def is_chinese_text (text : String) : Bool :=
  if total_chars text = 0 then false
  else decide ((chinese_chars text : ℚ) / (total_chars text : ℚ) > 0.2)

/-! ## Notion chunk splitter (src/app.py lines 242-243, 564, 782-783)

`chunks = [content[i:i+1900] for i in range(0, len(content), 1900)]` -/

/-- `range(0, stop, 1900)`: the `⌈stop/1900⌉` multiples of 1900 below
`stop`. -/
def chunkStarts (stop : Nat) : List Nat :=
  List.range' 0 ((stop + 1899) / 1900) 1900

/-- The fixed-width chunk splitter used on every persistence path:
the list of slices `content[i:i+1900]` for `i in range(0, len, 1900)`. -/
def notionChunks (content : List Char) : List (List Char) :=
  (chunkStarts content.length).map (fun i => (content.drop i).take 1900)

/-! ## `truncate_content` (src/app.py lines 461-467) -/

/-- `truncate_content`: collapse whitespace runs via `" ".join(text.split())`,
then truncate to `maxLength` characters plus a six-dot ellipsis. -/
def truncate_content (text : String) (maxLength : Nat) : String :=
  let cleanText := List.intercalate [' '] (pySplitWS text.toList)
  if cleanText.length ≤ maxLength then String.mk cleanText
  else String.mk (cleanText.take maxLength ++ "......".toList)

/-! ## `detect_url` (src/app.py lines 470-474)

`re.search(r'https?://[^\s<>"...]+', text)`: leftmost match of an
`http://` or `https://` scheme followed by one or more characters outside
the excluded class. -/

/-- The negated character class of the URL regex: whitespace and
the characters `<`, `>`, `"`, `\x7b`, `\x7d`, `|`, `\\`, `^`,
backquote, `[`, `]`. -/
def urlStopChar (c : Char) : Bool :=
  pyIsSpace c || c = '<' || c = '>' || c = '"' || c = Char.ofNat 0x7b ||
  c = Char.ofNat 0x7d || c = '|' || c = '\\' || c = '^' ||
  c = Char.ofNat 0x60 || c = '[' || c = ']'

/-- Try to match the URL regex anchored at the head of `l`. -/
def matchUrlAt (l : List Char) : Option (List Char) :=
  if ("https://".toList).isPrefixOf l then
    let run := (l.drop 8).takeWhile (fun c => ! urlStopChar c)
    if run = [] then none else some ("https://".toList ++ run)
  else if ("http://".toList).isPrefixOf l then
    let run := (l.drop 7).takeWhile (fun c => ! urlStopChar c)
    if run = [] then none else some ("http://".toList ++ run)
  else none

/-- `re.search` scan: first position (left to right) where the URL pattern
matches. -/
def detectUrlL : List Char → Option (List Char)
  | [] => none
  | c :: cs =>
    match matchUrlAt (c :: cs) with
    | some m => some m
    | none => detectUrlL cs

/-- `detect_url` from src/app.py. -/
def detect_url (text : String) : Option String :=
  (detectUrlL text.toList).map String.mk

/-! ## `detect_social_platform` (src/app.py lines 477-484) -/

def lowerS (s : String) : String :=
  String.mk (s.toList.map Char.toLower)

/-- `detect_social_platform`: lowercase the URL and test host substrings. -/
def detect_social_platform (url : String) : Option String :=
  let urlLower := lowerS url
  if isSubstrS "facebook.com" urlLower || isSubstrS "fb.com" urlLower ||
     isSubstrS "fb.watch" urlLower then some "facebook"
  else if isSubstrS "threads.com" urlLower || isSubstrS "threads.net" urlLower then
    some "threads"
  else none

/-! ## `fetch_webpage_content`: size ceiling (src/app.py lines 616-626) -/

def SIZE_LIMIT : Nat := 5 * 1024 * 1024

def oversizeMsg : String := "網頁內容過大，無法處理"

/-- The streaming read loop: append each 8192-byte chunk to the buffer and
raise the oversize `ValueError` as soon as the running total exceeds 5MB. -/
def readStream (acc : List Nat) : List (List Nat) → Except String (List Nat)
  | [] => .ok acc
  | c :: cs =>
    if SIZE_LIMIT < (acc ++ c).length then .error oversizeMsg
    else readStream (acc ++ c) cs

/-- The body-acquisition phase of `fetch_webpage_content`: the declared
`Content-Length` check (before any body byte is read), then the streaming
read with its incremental running-total check.  `contentLength` is `none`
when the header is absent or empty (falsy in the source). -/
def fetchBody (contentLength : Option Nat) (chunks : List (List Nat)) :
    Except String (List Nat) :=
  match contentLength with
  | some n => if SIZE_LIMIT < n then .error oversizeMsg else readStream [] chunks
  | none => readStream [] chunks

/-- Largest buffer size ever held by the streaming loop (buffer sizes are
sampled after each append, and the loop stops at the first oversize). -/
def maxBuffered (acc : List Nat) : List (List Nat) → Nat
  | [] => acc.length
  | c :: cs =>
    if SIZE_LIMIT < (acc ++ c).length then (acc ++ c).length
    else max (acc ++ c).length (maxBuffered (acc ++ c) cs)

/-! ## `fetch_webpage_content`: content-type gate (src/app.py lines 634-641) -/

def pdfMsg : String := "此網址為 PDF 檔案，暫不支援 PDF 摘要"

def nonWebpageMsg (contentType : String) : String :=
  "此網址非網頁內容 (Content-Type: " ++ contentType ++ ")"

/-- The content-type gate of `fetch_webpage_content` (lines 634-641),
including line 635's lowercasing of the raw `Content-Type` header value. -/
def contentTypeGate (contentTypeHeader : String) : Except String Unit :=
  let contentType := lowerS contentTypeHeader
  if ! (isSubstrS "text/html" contentType) && ! (isSubstrS "text/plain" contentType) then
    if isSubstrS "application/pdf" contentType then .error pdfMsg
    else if ! (("text/".toList).isPrefixOf contentType.toList) then
      .error (nonWebpageMsg contentType)
    else .ok ()
  else .ok ()

/-! ## `fetch_webpage_content`: encoding resolution (src/app.py lines 644-678)

Bytes are embedded as `List Nat`.  The codec machinery (`bytes.decode`) and
the statistical detector (`charset_normalizer.from_bytes(...).best()`) are
external collaborators and appear as function parameters. -/

/-- ASCII lowercase on a byte, for the case-insensitive regex scan. -/
def lowerByte (b : Nat) : Nat :=
  if 65 ≤ b ∧ b ≤ 90 then b + 32 else b

/-- Case-insensitive anchored byte-prefix test (`pat` given lowercased). -/
def matchesCI (pat l : List Nat) : Bool :=
  decide ((l.take pat.length).map lowerByte = pat)

/-- `\s` of a bytes-pattern regex: ASCII whitespace. -/
def regexSpaceByte (b : Nat) : Bool :=
  b = 32 || b = 9 || b = 10 || b = 13 || b = 12 || b = 11

/-- The negated class of `rb'charset=["\x27]?([^"\x27\s>]+)'`:
double quote, single quote, `>`, whitespace. -/
def metaGroupStop (b : Nat) : Bool :=
  b = 34 || b = 39 || b = 62 || regexSpaceByte b

/-- ASCII byte codes of `"charset="`. -/
def charsetPatBytes : List Nat := [99, 104, 97, 114, 115, 101, 116, 61]

/-- Try the embedded-charset regex anchored at the head of `l`:
`charset=` (case-insensitive), an optional quote, then a nonempty run of
bytes outside the stop class. -/
def metaMatchAt (l : List Nat) : Option (List Nat) :=
  if matchesCI charsetPatBytes l then
    let rest := l.drop 8
    let rest2 := match rest with
      | q :: t => if q = 34 || q = 39 then t else rest
      | [] => []
    let g := rest2.takeWhile (fun b => ! metaGroupStop b)
    if g = [] then none else some g
  else none

/-- `re.search` of the embedded-charset pattern: first matching position. -/
def metaScan : List Nat → Option (List Nat)
  | [] => none
  | b :: bs =>
    match metaMatchAt (b :: bs) with
    | some g => some g
    | none => metaScan bs

/-- `group(1).decode("ascii", errors="ignore")`: drop non-ASCII bytes. -/
def asciiIgnore (g : List Nat) : List Char :=
  (g.filter (fun b => decide (b ≤ 127))).map Char.ofNat

/-- `content_type.split("charset=")[-1].split(";")[0].strip()`. -/
def extractHeaderCharset (ct : List Char) : List Char :=
  let afterEq := (pySplitL ("charset=".toList) ct).getLastD []
  let beforeSemi := (pySplitL [';'] afterEq).headD []
  pyStripL beforeSemi

/-- Encoding choice of `fetch_webpage_content`, in the source's priority
order, with Python's empty-string falsiness: (1) a `charset=` parameter of
the (lowercased) content-type header; (2) else the first embedded charset
declaration in the first 2048 bytes; (3) else the statistical detector's
best guess over the first 10000 bytes, defaulting to `utf-8`. -/
def chosenEncoding (contentTypeLower : List Char) (bytes : List Nat)
    (detect : List Nat → Option String) : List Char :=
  let enc1 :=
    if isSubstrL ("charset=".toList) contentTypeLower then
      extractHeaderCharset contentTypeLower
    else []
  let enc2 :=
    if enc1 = [] then
      match metaScan (bytes.take 2048) with
      | some g => asciiIgnore g
      | none => []
    else enc1
  if enc2 = [] then
    match detect (bytes.take 10000) with
    | some e => e.toList
    | none => "utf-8".toList
  else enc2

/-- `sum(1 for c in text[:1000] if ord(c) < 32 and c not in '\n\r\t')`. -/
def controlCount (text : String) : Nat :=
  (text.toList.take 1000).countP
    (fun c => decide (c.toNat < 32) && ! (c = '\n' || c = '\r' || c = '\t'))

/-- `text[:1000].count('�')`. -/
def replacementCount (text : String) : Nat :=
  (text.toList.take 1000).countP (fun c => c = '�')

/-- The decode-and-validate phase of `fetch_webpage_content`:
decode with the chosen encoding (`decode enc bytes = none` embeds a
`UnicodeDecodeError` / `LookupError`); if the decode raises, or the decoded
text has more than 50 control characters or more than 50 replacement
characters in its first 1000 characters, redo with the lossy
`content_bytes.decode("utf-8", errors="ignore")` (`lossyUtf8`, total by
type, so it never raises). -/
def decodeWebpage (contentTypeLower : List Char) (bytes : List Nat)
    (detect : List Nat → Option String)
    (decode : List Char → List Nat → Option String)
    (lossyUtf8 : List Nat → String) : String :=
  let enc := chosenEncoding contentTypeLower bytes detect
  match decode enc bytes with
  | none => lossyUtf8 bytes
  | some text =>
    if 50 < controlCount text || 50 < replacementCount text then lossyUtf8 bytes
    else text

/-! ## Structured model-output parsing (src/app.py lines 152-157, 213-218,
337-342)

`json.loads` is external; it appears as the parameter `loads`, returning
`none` where the library would raise `json.JSONDecodeError`. -/

inductive ParseError where
  | indexError
  | malformed
deriving DecidableEq, Repr

/-- `result_text.split("\n", 1)[1]`: everything after the first newline;
`none` embeds the `IndexError` raised when there is no newline. -/
def splitOnceNl : List Char → Option (List Char)
  | [] => none
  | c :: cs => if c = '\n' then some cs else splitOnceNl cs

/-- Index just before the last occurrence of `pat`, if any. -/
def lastOccurIdx (pat : List Char) : List Char → Option Nat
  | [] => none
  | c :: cs =>
    match lastOccurIdx pat cs with
    | some i => some (i + 1)
    | none => if pat.isPrefixOf (c :: cs) then some 0 else none

/-- `s.rsplit(pat, 1)[0]`: everything before the last occurrence of `pat`,
or all of `s` when `pat` does not occur. -/
def rsplitBefore (pat l : List Char) : List Char :=
  match lastOccurIdx pat l with
  | none => l
  | some i => l.take i

/-- The shared structured-output recovery of `generate_summary_and_title`,
`generate_cantonese_summary_and_title` and `generate_image_prompt`:
strip the reply, drop a leading fence line and a trailing fence when the
reply starts with a fence, then parse; a reply the parser rejects is a
surfaced error, never a default value. -/
def parse_model_json (loads : String → Option (String × String))
    (content : String) : Except ParseError (String × String) :=
  let t := pyStripS content
  if ("```".toList).isPrefixOf t.toList then
    match splitOnceNl t.toList with
    | none => .error .indexError
    | some rest =>
      match loads (String.mk (rsplitBefore ("```".toList) rest)) with
      | some r => .ok r
      | none => .error .malformed
  else
    match loads t with
    | some r => .ok r
    | none => .error .malformed

/-! ## Text-message dispatcher (`handle_message`, src/app.py lines 835-990)

The handler is embedded as a function from the inbound text and sender id,
plus an oracle record for the external steps, to the triple of
(extractor calls made, Notion pages created, reply sent). -/

def ALLOWED_LINE_USER_IDS : List String := ["Uca76be212cf92a65ad706eac60503cc2"]

def UNAUTHORIZED_MESSAGE : String := "抱歉，這是私人 Line Bot，未授權的用戶無法使用。"

/-- One call into an extraction backend. -/
inductive Extraction where
  | apifyCall (url platform : String)
  | webpageFetch (url : String)
deriving DecidableEq, Repr

/-- A Notion page created by one of the three save helpers on the text
path (`save_social_to_notion`, `save_webpage_to_notion`, `save_to_notion`). -/
inductive SavedNote where
  | socialNote (title summary originalContent platform : String) (lineId : Option String)
  | webpageNote (title summary originalContent : String) (lineId : Option String)
  | textNote (title content summary noteType : String)
      (pageContent : Option String) (lineId : Option String)
deriving DecidableEq, Repr

/-- The reply branch taken by `handle_message`, with its payload. -/
inductive TextReply where
  | unauthorizedReply
  | fbSaved (title summary : String)
  | threadsUnsupported
  | webSaved (title summary : String)
  | urlError (err : String)
  | helpEcho (userText : String)
  | emptyArticle
  | articleSaved (title summary : String)
  | textError (err : String)
deriving DecidableEq, Repr

/-- The literal reply text sent for each branch of `handle_message`. -/
def renderTextReply : TextReply → String
  | .unauthorizedReply => UNAUTHORIZED_MESSAGE
  | .fbSaved t s => "✅ 已儲存 Facebook 貼文到 Notion\n\n📌 來源：" ++ t ++ "\n\n📝 摘要：" ++ s
  | .threadsUnsupported =>
      "抱歉，暫時還未支援 Threads 內容抓取。\n\n目前支援：\n✅ Facebook 貼文\n✅ 一般網頁"
  | .webSaved t s => "✅ 已儲存到 Notion\n\n📌 標題：" ++ t ++ "\n\n📝 摘要：" ++ s
  | .urlError e => "處理網址時發生錯誤：" ++ e
  | .helpEcho txt =>
      "收到！你話：「" ++ txt ++
      "」\n\n有咩可以幫到你？\n\n💡 小提示：\n• 傳送語音 → 幫你轉成文字筆記\n• 輸入 /a 加文章 → 幫你摘要成廣東話\n• 貼上網址 → 幫你摘要網頁內容"
  | .emptyArticle => "請在 /a 後面貼上文章內容"
  | .articleSaved t s => "✅ 已儲存到 Notion\n\n📌 標題：" ++ t ++ "\n\n📝 廣東話摘要：" ++ s
  | .textError e => "處理文字時發生錯誤：" ++ e

/-- External collaborators of the text path: the Apify scrape, the webpage
fetch, `summarize_webpage` and `generate_cantonese_summary_and_title`.
Each returns `Except`, an `.error` embedding a raised exception whose
message is the carried string. -/
structure TextOracles where
  scrapeFacebook : String → Except String (String × String)
  fetchWebpage : String → Except String (String × String)
  summarize : String → Except String String
  cantoneseSummary : String → Except String (String × String)

/-- The `/a `-article branch of `handle_message` (lines 943-990): the
already-stripped article text is summarized into Cantonese, the Note is
built with the 30-character truncated preview as `Content` and the full
article as page body, and failures surface as the text-error reply. -/
def handle_article (articleText userLineId : String) (o : TextOracles) :
    List Extraction × List SavedNote × TextReply :=
  match o.cantoneseSummary articleText with
  | .error e => ([], [], .textError e)
  | .ok (title, summary) =>
      ([],
       [.textNote title (truncate_content articleText 30) summary "文字摘要"
          (some articleText) (some userLineId)],
       .articleSaved title summary)

/-- The per-event text handler `handle_message`: authorization gate, URL
scan, platform classification, then the `/a ` command prefix, in the
source's order. -/
def handle_message (userText userLineId : String) (o : TextOracles) :
    List Extraction × List SavedNote × TextReply :=
  if userLineId ∉ ALLOWED_LINE_USER_IDS then ([], [], .unauthorizedReply)
  else
    match detect_url userText with
    | some url =>
      if detect_social_platform url = some "facebook" then
        match o.scrapeFacebook url with
        | .error e => ([.apifyCall url "facebook"], [], .urlError e)
        | .ok (title, content) =>
          if content = "" then
            ([.apifyCall url "facebook"], [], .urlError "未能從貼文中提取到文字內容")
          else
            match o.summarize content with
            | .error e => ([.apifyCall url "facebook"], [], .urlError e)
            | .ok summary =>
              ([.apifyCall url "facebook"],
               [.socialNote title summary content "facebook" (some userLineId)],
               .fbSaved title summary)
      else if detect_social_platform url = some "threads" then
        ([], [], .threadsUnsupported)
      else
        match o.fetchWebpage url with
        | .error e => ([.webpageFetch url], [], .urlError e)
        | .ok (rawTitle, content) =>
          let title := if rawTitle = "" then "無標題網頁" else rawTitle
          match o.summarize content with
          | .error e => ([.webpageFetch url], [], .urlError e)
          | .ok summary =>
            ([.webpageFetch url],
             [.webpageNote title summary content (some userLineId)],
             .webSaved title summary)
    | none =>
      if ! (("/a ".toList).isPrefixOf userText.toList) then
        ([], [], .helpEcho userText)
      else
        let articleText := String.mk (pyStripL (userText.toList.drop 3))
        if articleText = "" then ([], [], .emptyArticle)
        else handle_article articleText userLineId o

/-! ## Audio-message handler (`handle_audio_message`, src/app.py
lines 993-1079)

All four steps (LINE blob download, the raw transcription model call, the
`correct_cantonese_text` correction pass, `generate_summary_and_title`)
sit inside one try whose except replies with the untruncated error text;
`save_to_notion` is called with the corrected transcript as `Content`, the
default type tag and no page body. -/

/-- The reply branch taken by `handle_audio_message`. -/
inductive AudioReply where
  | unauthorizedReply
  | audioSaved (title summary : String)
  | audioError (err : String)
deriving DecidableEq, Repr

/-- The literal reply text sent for each branch of `handle_audio_message`. -/
def renderAudioReply : AudioReply → String
  | .unauthorizedReply => UNAUTHORIZED_MESSAGE
  | .audioSaved t s => "✅ 已儲存到 Notion\n\n📌 標題：" ++ t ++ "\n\n📝 摘要：" ++ s
  | .audioError e => "處理語音時發生錯誤：" ++ e

/-- External collaborators of the audio path, in call order: the LINE blob
download, the pass-1 transcription model call, `correct_cantonese_text`
(pass 2) and `generate_summary_and_title`. -/
structure AudioOracles where
  download : Except String (List Nat)
  transcribe : List Nat → Except String String
  correct : String → Except String String
  summaryTitle : String → Except String (String × String)

/-- The per-event audio handler `handle_audio_message`: authorization gate,
then download → transcribe → correct → summarize → save, with any failure
propagating to the single outer except and aborting persistence. -/
def handle_audio_message (userLineId : String) (o : AudioOracles) :
    List SavedNote × AudioReply :=
  if userLineId ∉ ALLOWED_LINE_USER_IDS then ([], .unauthorizedReply)
  else
    match o.download with
    | .error e => ([], .audioError e)
    | .ok audioContent =>
      match o.transcribe audioContent with
      | .error e => ([], .audioError e)
      | .ok rawTranscription =>
        match o.correct rawTranscription with
        | .error e => ([], .audioError e)
        | .ok transcribedText =>
          match o.summaryTitle transcribedText with
          | .error e => ([], .audioError e)
          | .ok (title, summary) =>
            ([.textNote title transcribedText summary "語音助手" none (some userLineId)],
             .audioSaved title summary)

/-! ## Image-message handler (`handle_image_message`, src/app.py
lines 1082-1202) and `save_image_to_notion` (lines 432-458) -/

/-- The Notion page built by `save_image_to_notion`: `imageFiles` holds the
original image reference and, when present, the AI-generated one. -/
structure NotionImagePage where
  name : String
  imageFiles : List (String × String)
  promptField : String
  contentField : String
  summaryField : String
  pageType : String
  lineId : Option String
deriving DecidableEq, Repr

/-- `save_image_to_notion` from src/app.py. -/
def save_image_to_notion (title promptText imageUrl : String)
    (lineId : Option String) (generatedImageUrl : Option String)
    (styleUsed : Option String) (newPrompt : Option String) : NotionImagePage :=
  let imageFiles :=
    [(title ++ " (原圖)", imageUrl)] ++
    (match generatedImageUrl with
     | some u => [(title ++ " (AI生成)", u)]
     | none => [])
  { name := title
    imageFiles := imageFiles
    promptField := promptText
    contentField := styleUsed.getD ""
    summaryField := newPrompt.getD ""
    pageType := "圖片助手"
    lineId := lineId }

/-- The reply branch taken by `handle_image_message`. -/
inductive ImageReply where
  | unauthorizedReply
  | success (text generatedImageUrl : String)
  | degraded (text : String)
  | errorReply (text : String)
deriving DecidableEq, Repr

/-- `selected_style.split(",")[0]`. -/
def styleNameOf (selectedStyle : String) : String :=
  String.mk ((pySplitL [','] selectedStyle.toList).headD [])

/-- The full-success reply text of the image path. -/
def successReplyText (title styleName model : String) : String :=
  "收到你張相啦！📸\n\n睇落係「" ++ title ++
  "」嚟嘅～ 我已經幫你收藏咗去 Notion 喇！\n\n順便幫你用「" ++ styleName ++
  "」風格重新繪製咗一張，希望你鍾意啦 🎨✨\n\n🤖 生成模型：" ++ model

/-- The degraded-success reply text of the image path: the same collected
confirmation, plus the generation error truncated to 150 characters
(`str(gen_error)[:150]`). -/
def degradedReplyText (title styleName genError : String) : String :=
  "收到你張相啦！📸\n\n睇落係「" ++ title ++
  "」嚟嘅～ 我已經幫你收藏咗去 Notion 喇！\n\n本來想幫你用「" ++ styleName ++
  "」風格重新繪製，但係生成圖片時出咗啲問題 😅\n\n❌ 錯誤：" ++
  String.mk (genError.toList.take 150)

/-- External collaborators of the image path, in call order: the LINE blob
download, the Google Drive upload, `generate_image_prompt` (analysis),
the style pick (`random.choice`), `transform_prompt_with_style`, and the
supplementary `generate_new_image` (returning image URL and model name). -/
structure ImageOracles where
  download : Except String (List Nat)
  upload : List Nat → Except String String
  analyze : List Nat → Except String (String × String)
  selectedStyle : String
  transformStyle : String → String → Except String String
  generateImage : String → Except String (String × String)

/-- The per-event image handler `handle_image_message`: the supplementary
`generate_new_image` call is wrapped in its own try; its failure still saves
the primary page (without the generated-image file) and replies with the
degraded-success text, while failures of the earlier essential steps fall
through to the outer error reply. -/
def handle_image_message (userLineId : String) (o : ImageOracles) :
    List NotionImagePage × ImageReply :=
  if userLineId ∉ ALLOWED_LINE_USER_IDS then ([], .unauthorizedReply)
  else
    match o.download with
    | .error e => ([], .errorReply ("處理圖片時發生錯誤：" ++ e))
    | .ok imageContent =>
      match o.upload imageContent with
      | .error e => ([], .errorReply ("處理圖片時發生錯誤：" ++ e))
      | .ok imageUrl =>
        match o.analyze imageContent with
        | .error e => ([], .errorReply ("處理圖片時發生錯誤：" ++ e))
        | .ok (title, promptText) =>
          match o.transformStyle promptText o.selectedStyle with
          | .error e => ([], .errorReply ("處理圖片時發生錯誤：" ++ e))
          | .ok newPrompt =>
            match o.generateImage newPrompt with
            | .ok (generatedImageUrl, modelUsed) =>
              ([save_image_to_notion title promptText imageUrl (some userLineId)
                  (some generatedImageUrl) (some o.selectedStyle) (some newPrompt)],
               .success
                 (successReplyText title (styleNameOf o.selectedStyle) modelUsed)
                 generatedImageUrl)
            | .error genError =>
              ([save_image_to_notion title promptText imageUrl (some userLineId)
                  none (some o.selectedStyle) (some newPrompt)],
               .degraded (degradedReplyText title (styleNameOf o.selectedStyle) genError))

/-! ## Concrete fixtures used by witnesses and counterexamples -/

/-- The allow-listed sender id. -/
def demoUid : String := "Uca76be212cf92a65ad706eac60503cc2"

/-- Text oracles whose steps all fail with short messages. -/
def errTextOracles : TextOracles :=
  ⟨fun _ => .error "e0", fun _ => .error "e0", fun _ => .error "e0", fun _ => .error "e0"⟩

/-- Audio oracles whose download succeeds and whose transcription raises. -/
def errAudioOracles : AudioOracles :=
  ⟨.ok [1], fun _ => .error "e0", fun _ => .error "e0", fun _ => .error "e0"⟩

/-- A 250-character failure message, longer than every truncation bound
claimed for the top-level error reply. -/
def longFailureMsg : String := String.mk (List.replicate 250 'x')

/-- Text oracles whose webpage fetch raises `longFailureMsg`. -/
def longFailOracles : TextOracles :=
  ⟨fun _ => .error "e0", fun _ => .error longFailureMsg,
   fun _ => .error "e0", fun _ => .error "e0"⟩

/-- Image oracles where everything up to and including the prompt transform
succeeds and `generate_new_image` raises. -/
def genFailImageOracles : ImageOracles :=
  ⟨.ok [1], fun _ => .ok "http://orig", fun _ => .ok ("T", "P"),
   "Style A, bold", fun _ _ => .ok "NP", fun _ => .error "generation failed"⟩

/-- A structured parser accepting exactly the fenced example's body. -/
def exampleLoads : String → Option (String × String) :=
  fun s =>
    if s = "\x7b\"title\":\"T\",\"summary\":\"S\"\x7d\n" then some ("T", "S") else none

/-! # Theorems

One theorem (plus witness / counterexample where required) per claim,
preceded by general lemmas they share. -/

/-! ## Shared lemmas -/

theorem join_slices (s : List Char) :
    ∀ (m k : Nat), s.length ≤ k + 1900 * m →
      ((List.range' k m 1900).map (fun i => (s.drop i).take 1900)).flatten = s.drop k := by
  intro m
  induction m with
  | zero =>
    intro k hk
    simp only [Nat.mul_zero, Nat.add_zero] at hk
    simp [List.drop_eq_nil_of_le hk]
  | succ m ih =>
    intro k hk
    rw [List.range'_succ]
    simp only [List.map_cons, List.flatten_cons]
    rw [ih (k + 1900) (by omega), ← List.drop_drop]
    exact List.take_append_drop 1900 (s.drop k)

theorem slices_nonlast_length (s : List Char) :
    ∀ (m k : Nat), k + 1900 * m ≤ s.length + 1899 →
      ∀ c ∈ ((List.range' k m 1900).map (fun i => (s.drop i).take 1900)).dropLast,
        c.length = 1900 := by
  intro m
  induction m with
  | zero => intro k _ c hc; simp at hc
  | succ m ih =>
    intro k hk c hc
    cases m with
    | zero =>
      rw [List.range'_succ] at hc
      simp at hc
    | succ m' =>
      rw [List.range'_succ, List.map_cons] at hc
      rw [List.dropLast_cons_of_ne_nil (by simp [List.range'_succ])] at hc
      rcases List.mem_cons.mp hc with h | h
      · subst h
        rw [List.length_take, List.length_drop]
        omega
      · exact ih (k + 1900) (by omega) c h

/-! ## C2: the chunk splitter is lossless and fixed-width -/

/-- C2: for every string `S`, the persistence-path chunk splitter
(`[content[i:i+1900] for i in range(0, len(content), 1900)]`, used by
`save_to_notion`, `save_social_to_notion` and `save_webpage_to_notion`)
produces slices whose in-order concatenation reproduces `S` exactly, and
every chunk except possibly the last has length exactly 1900. -/
theorem chunk_splitter_lossless_fixed_width (s : String) :
    (notionChunks s.toList).flatten = s.toList ∧
    ∀ c ∈ (notionChunks s.toList).dropLast, c.length = 1900 := by
  constructor
  · have := join_slices s.toList ((s.toList.length + 1899) / 1900) 0 (by omega)
    simpa [notionChunks, chunkStarts] using this
  · intro c hc
    refine slices_nonlast_length s.toList ((s.toList.length + 1899) / 1900) 0 ?_ c ?_
    · omega
    · simpa [notionChunks, chunkStarts] using hc

/-- Witness for C2 at a concrete 1901-character string: the split has two
chunks, the non-last one of length exactly 1900, and rejoins losslessly. -/
theorem chunk_splitter_witness :
    (notionChunks (String.mk (List.replicate 1901 'a')).toList).flatten =
      (String.mk (List.replicate 1901 'a')).toList ∧
    List.replicate 1900 'a' ∈
      (notionChunks (String.mk (List.replicate 1901 'a')).toList).dropLast ∧
    (List.replicate 1900 'a').length = 1900 := by
  have htoList : (String.mk (List.replicate 1901 'a')).toList = List.replicate 1901 'a' := rfl
  have hchunks :
      notionChunks (List.replicate 1901 'a') =
        [List.replicate 1900 'a', List.replicate 1 'a'] := by
    unfold notionChunks chunkStarts
    rw [List.length_replicate]
    rw [show (1901 + 1899) / 1900 = 2 by norm_num]
    rw [show List.range' 0 2 1900 = [0, 1900] from rfl]
    rw [List.map_cons, List.map_cons, List.map_nil]
    rw [List.drop_zero, List.take_replicate, Nat.min_eq_left (by norm_num),
      List.drop_replicate, List.take_replicate]
    rw [show (1901 - 1900 : Nat) = 1 by norm_num, Nat.min_eq_right (by norm_num)]
  have hmem : List.replicate 1900 'a' ∈
      (notionChunks (String.mk (List.replicate 1901 'a')).toList).dropLast := by
    rw [htoList, hchunks]
    exact List.mem_cons_self _ _
  exact ⟨(chunk_splitter_lossless_fixed_width (String.mk (List.replicate 1901 'a'))).1,
    hmem,
    (chunk_splitter_lossless_fixed_width (String.mk (List.replicate 1901 'a'))).2 _ hmem⟩

/-! ## C9: the CJK-ratio classifier -/

/-- C9: for every string with at least one non-whitespace character,
`is_chinese_text` returns `true` exactly when the count of CJK Unified
Ideographs strictly exceeds 20% of the non-whitespace count (so 3 CJK out
of 10 classifies as Chinese and 1 out of 10 does not, as the witness
instantiates). -/
theorem cjk_ratio_classifier (s : String) (h : 0 < total_chars s) :
    is_chinese_text s = true ↔ 5 * chinese_chars s > total_chars s := by
  unfold is_chinese_text
  rw [if_neg (by omega), decide_eq_true_eq]
  have ht : (0 : ℚ) < (total_chars s : ℚ) := by exact_mod_cast h
  rw [gt_iff_lt, show (0.2 : ℚ) = 1 / 5 by norm_num,
    div_lt_div_iff₀ (by norm_num) ht]
  constructor
  · intro h2
    have : (total_chars s : ℚ) < 5 * (chinese_chars s : ℚ) := by push_cast at h2 ⊢; linarith
    exact_mod_cast this
  · intro h2
    have : (total_chars s : ℚ) < 5 * (chinese_chars s : ℚ) := by exact_mod_cast h2
    linarith

/-- Witness for C9: `"中文字abcdefg"` has 3 CJK of 10 non-whitespace
characters (30%) and classifies as Chinese; `"中abcdefghi"` has 1 of 10
(10%) and does not. -/
theorem cjk_ratio_witness :
    is_chinese_text "中文字abcdefg" = true ∧ is_chinese_text "中abcdefghi" = false := by
  constructor
  · exact (cjk_ratio_classifier "中文字abcdefg" (by decide)).mpr (by decide)
  · by_contra hne
    have h2 := (cjk_ratio_classifier "中abcdefghi" (by decide)).mp
      (by revert hne; cases is_chinese_text "中abcdefghi" <;> simp)
    revert h2
    decide

/-! ## C10: all-whitespace input is guarded -/

/-- C10: for every string whose characters are all whitespace (including
the empty string), `is_chinese_text` returns `false` via the explicit
zero-denominator guard, so the classifier is total and such input takes the
needs-translation branch. -/
theorem whitespace_classifier_total (s : String)
    (h : ∀ c ∈ s.toList, pyIsSpace c = true) :
    is_chinese_text s = false := by
  have hz : total_chars s = 0 := by
    unfold total_chars
    rw [List.countP_eq_zero]
    intro c hc
    simp [h c hc]
  unfold is_chinese_text
  rw [if_pos hz]

/-- Witness for C10 at the empty string and a whitespace-only string. -/
theorem whitespace_classifier_witness :
    is_chinese_text "" = false ∧ is_chinese_text " \t\n" = false :=
  ⟨whitespace_classifier_total "" (by decide),
   whitespace_classifier_total " \t\n" (by decide)⟩

/-! ## C4: the 5MB ceiling of `fetch_webpage_content` -/

theorem readStream_oversize (cs : List (List Nat)) :
    ∀ acc, acc.length ≤ SIZE_LIMIT → SIZE_LIMIT < (acc ++ cs.flatten).length →
      readStream acc cs = .error oversizeMsg := by
  induction cs with
  | nil =>
    intro acc hacc hover
    simp only [List.flatten_nil, List.append_nil, List.length_append] at hover
    omega
  | cons c cs ih =>
    intro acc hacc hover
    simp only [readStream]
    split
    · rfl
    · rename_i hle
      refine ih (acc ++ c) (by omega) ?_
      rw [List.flatten_cons, ← List.append_assoc] at hover
      exact hover

theorem readStream_ok (cs : List (List Nat)) :
    ∀ acc, (acc ++ cs.flatten).length ≤ SIZE_LIMIT →
      readStream acc cs = .ok (acc ++ cs.flatten) := by
  induction cs with
  | nil => intro acc _; simp [readStream]
  | cons c cs ih =>
    intro acc hle
    rw [List.flatten_cons, ← List.append_assoc] at hle
    have hlen : (acc ++ c).length ≤ SIZE_LIMIT := by
      have := List.length_append (acc ++ c) cs.flatten
      omega
    simp only [readStream, if_neg (by omega : ¬ SIZE_LIMIT < (acc ++ c).length)]
    rw [ih (acc ++ c) hle, List.flatten_cons, ← List.append_assoc]

theorem maxBuffered_bound (C : Nat) (cs : List (List Nat)) :
    ∀ acc, acc.length ≤ SIZE_LIMIT → (∀ c ∈ cs, c.length ≤ C) →
      maxBuffered acc cs ≤ SIZE_LIMIT + C := by
  induction cs with
  | nil => intro acc hacc _; simpa [maxBuffered] using Nat.le_add_right_of_le hacc
  | cons c cs ih =>
    intro acc hacc hC
    have hc : c.length ≤ C := hC c (List.mem_cons_self _ _)
    have h2 : (acc ++ c).length ≤ SIZE_LIMIT + C := by
      rw [List.length_append]; omega
    simp only [maxBuffered]
    split
    · exact h2
    · rename_i hle
      refine max_le h2 (ih (acc ++ c) (by omega) ?_)
      intro d hd
      exact hC d (List.mem_cons_of_mem _ hd)

/-- C4: `fetch_webpage_content` enforces the 5MB ceiling twice.  A declared
`Content-Length` over 5MB raises the oversize error before reading any body
chunk (the result is the error for every possible stream); otherwise the
streaming loop raises the same oversize error exactly when the accumulated
byte count exceeds 5MB and returns the full body otherwise; and with the
source's 8192-byte chunks the buffer never holds more than one chunk past
5MB. -/
theorem fetch_size_ceiling_guard (n : Nat) (chunks : List (List Nat)) :
    (SIZE_LIMIT < n → fetchBody (some n) chunks = .error oversizeMsg) ∧
    (n ≤ SIZE_LIMIT → fetchBody (some n) chunks = readStream [] chunks) ∧
    (fetchBody none chunks = readStream [] chunks) ∧
    (SIZE_LIMIT < chunks.flatten.length → readStream [] chunks = .error oversizeMsg) ∧
    (chunks.flatten.length ≤ SIZE_LIMIT → readStream [] chunks = .ok chunks.flatten) ∧
    ((∀ c ∈ chunks, c.length ≤ 8192) → maxBuffered [] chunks ≤ SIZE_LIMIT + 8192) := by
  refine ⟨fun h => ?_, fun h => ?_, rfl, fun h => ?_, fun h => ?_, fun h => ?_⟩
  · simp [fetchBody, h]
  · simp [fetchBody, if_neg (by omega : ¬ SIZE_LIMIT < n)]
  · exact readStream_oversize chunks [] (by simp [SIZE_LIMIT]) (by simpa using h)
  · simpa using readStream_ok chunks [] (by simpa using h)
  · exact maxBuffered_bound 8192 chunks [] (by simp [SIZE_LIMIT]) h

/-- Witness for C4 at the spec's example: a declared `Content-Length` of
6000000 fails with the oversize error without consuming the stream. -/
theorem fetch_size_ceiling_witness :
    SIZE_LIMIT < 6000000 ∧
    fetchBody (some 6000000) [[1, 2, 3]] = .error oversizeMsg :=
  ⟨by decide, (fetch_size_ceiling_guard 6000000 [[1, 2, 3]]).1 (by decide)⟩

/-! ## C6 (corrected): the content-type gate -/

/-- Counterexample to C6 as stated: `text/css` contains neither `text/html`
nor `text/plain`, yet the gate accepts it (the `startswith("text/")` escape
at line 640), instead of raising the generic non-webpage error the claim
requires for every such content type. -/
theorem content_type_gate_counterexample :
    contentTypeGate "text/css" = .ok () ∧
    isSubstrS "text/html" (lowerS "text/css") = false ∧
    isSubstrS "text/plain" (lowerS "text/css") = false :=
  ⟨by decide, by decide, by decide⟩

/-- C6 as amended: the gate accepts a `Content-Type` containing `text/html`
or `text/plain`, and also any other `Content-Type` starting with `text/`;
`application/pdf` (when neither accepted marker is present) raises the
PDF-specific error; a `Content-Type` with none of these raises the generic
non-webpage error; and the two errors are distinct. -/
theorem content_type_gate_amended (ctH ct2 : String) :
    (isSubstrS "text/html" (lowerS ctH) = true → contentTypeGate ctH = .ok ()) ∧
    (isSubstrS "text/plain" (lowerS ctH) = true → contentTypeGate ctH = .ok ()) ∧
    (isSubstrS "text/html" (lowerS ctH) = false →
     isSubstrS "text/plain" (lowerS ctH) = false →
     isSubstrS "application/pdf" (lowerS ctH) = true →
     contentTypeGate ctH = .error pdfMsg) ∧
    (isSubstrS "text/html" (lowerS ctH) = false →
     isSubstrS "text/plain" (lowerS ctH) = false →
     isSubstrS "application/pdf" (lowerS ctH) = false →
     ("text/".toList).isPrefixOf (lowerS ctH).toList = false →
     contentTypeGate ctH = .error (nonWebpageMsg (lowerS ctH))) ∧
    (isSubstrS "text/html" (lowerS ctH) = false →
     isSubstrS "text/plain" (lowerS ctH) = false →
     isSubstrS "application/pdf" (lowerS ctH) = false →
     ("text/".toList).isPrefixOf (lowerS ctH).toList = true →
     contentTypeGate ctH = .ok ()) ∧
    pdfMsg ≠ nonWebpageMsg ct2 := by
  refine ⟨fun h1 => ?_, fun h2 => ?_, fun h1 h2 h3 => ?_, fun h1 h2 h3 h4 => ?_,
    fun h1 h2 h3 h4 => ?_, fun h => ?_⟩
  · simp [contentTypeGate, h1]
  · simp [contentTypeGate, h2]
  · simp [contentTypeGate, h1, h2, h3]
  · simp only [contentTypeGate, h1, h2, h3, h4, Bool.not_false, Bool.not_true,
      Bool.and_self, if_true, if_false, Bool.false_eq_true, ite_true, ite_false]
  · simp only [contentTypeGate, h1, h2, h3, h4, Bool.not_false, Bool.not_true,
      Bool.and_self, if_true, if_false, Bool.false_eq_true, ite_true, ite_false]
  · have h3 : pdfMsg.toList.getD 3 ' ' = (nonWebpageMsg ct2).toList.getD 3 ' ' := by
      rw [h]
    have hl : pdfMsg.toList.getD 3 ' ' = '為' := rfl
    have hr : (nonWebpageMsg ct2).toList.getD 3 ' ' = '非' := rfl
    rw [hl, hr] at h3
    exact absurd h3 (by decide)

/-- Witness for C6 as amended, at the spec's example `application/pdf`:
the PDF-specific error is raised. -/
theorem content_type_gate_witness :
    contentTypeGate "application/pdf" = .error pdfMsg :=
  (content_type_gate_amended "application/pdf" "").2.2.1
    (by decide) (by decide) (by decide)

/-! ## C1: image-path fallback -/

/-- C1: on the image path, when every step up to the prompt transform
succeeds and the supplementary `generate_new_image` raises, the failure is
caught inside the handler: exactly one Note is persisted via
`save_image_to_notion`, carrying the original image reference, the title,
the analysis prompt, the chosen style and the transformed prompt, with the
generated-image file absent; and the reply is the degraded-success message
(with the error preview truncated to 150 characters), not an aborting
error reply. -/
theorem image_generation_fallback_saves_primary
    (uid imageUrl title promptText newPrompt genErr : String)
    (img : List Nat) (o : ImageOracles)
    (hu : uid ∈ ALLOWED_LINE_USER_IDS)
    (hdl : o.download = .ok img)
    (hup : o.upload img = .ok imageUrl)
    (han : o.analyze img = .ok (title, promptText))
    (htr : o.transformStyle promptText o.selectedStyle = .ok newPrompt)
    (hgen : o.generateImage newPrompt = .error genErr) :
    handle_image_message uid o =
      ([save_image_to_notion title promptText imageUrl (some uid) none
          (some o.selectedStyle) (some newPrompt)],
       .degraded (degradedReplyText title (styleNameOf o.selectedStyle) genErr)) ∧
    (handle_image_message uid o).1.length = 1 ∧
    (save_image_to_notion title promptText imageUrl (some uid) none
        (some o.selectedStyle) (some newPrompt)).imageFiles =
      [(title ++ " (原圖)", imageUrl)] ∧
    (save_image_to_notion title promptText imageUrl (some uid) none
        (some o.selectedStyle) (some newPrompt)).name = title ∧
    (save_image_to_notion title promptText imageUrl (some uid) none
        (some o.selectedStyle) (some newPrompt)).promptField = promptText ∧
    (save_image_to_notion title promptText imageUrl (some uid) none
        (some o.selectedStyle) (some newPrompt)).contentField = o.selectedStyle ∧
    (save_image_to_notion title promptText imageUrl (some uid) none
        (some o.selectedStyle) (some newPrompt)).summaryField = newPrompt := by
  have hnn : ¬ (uid ∉ ALLOWED_LINE_USER_IDS) := fun h => h hu
  have hmain : handle_image_message uid o =
      ([save_image_to_notion title promptText imageUrl (some uid) none
          (some o.selectedStyle) (some newPrompt)],
       .degraded (degradedReplyText title (styleNameOf o.selectedStyle) genErr)) := by
    simp only [handle_image_message]
    rw [if_neg hnn]
    simp only [hdl, hup, han, htr, hgen]
  refine ⟨hmain, by simp [hmain], rfl, rfl, rfl, rfl, rfl⟩

/-- Witness for C1 at concrete oracles whose generation step raises. -/
theorem image_generation_fallback_witness :
    handle_image_message demoUid genFailImageOracles =
      ([save_image_to_notion "T" "P" "http://orig" (some demoUid) none
          (some "Style A, bold") (some "NP")],
       .degraded (degradedReplyText "T" (styleNameOf "Style A, bold") "generation failed")) :=
  (image_generation_fallback_saves_primary demoUid "http://orig" "T" "P" "NP"
    "generation failed" [1] genFailImageOracles (by decide) rfl rfl rfl rfl rfl).1

/-! ## C3: classification order of the text dispatcher -/

/-- C3: the text handler classifies in order: (a) an unauthorized sender
gets the fixed denial reply with no extraction and no persistence; (b) else
a detected URL substring is classified by `detect_social_platform`, and the
branch matching the classification runs (Facebook scrape, the Threads
not-yet-supported reply with no extraction or persistence, or the generic
webpage fetch); (c) else text without the literal `/a ` prefix gets the
help echo with no extraction and no persistence, and only `/a `-prefixed
text reaches the article-summarize branch. -/
theorem text_classification_order (text uid url : String) (o : TextOracles) :
    (uid ∉ ALLOWED_LINE_USER_IDS →
      handle_message text uid o = ([], [], .unauthorizedReply)) ∧
    (uid ∈ ALLOWED_LINE_USER_IDS → detect_url text = some url →
      (detect_social_platform url = some "facebook" →
        (handle_message text uid o).1 = [.apifyCall url "facebook"]) ∧
      (detect_social_platform url = some "threads" →
        handle_message text uid o = ([], [], .threadsUnsupported)) ∧
      (detect_social_platform url = none →
        (handle_message text uid o).1 = [.webpageFetch url])) ∧
    (uid ∈ ALLOWED_LINE_USER_IDS → detect_url text = none →
      ("/a ".toList).isPrefixOf text.toList = false →
      handle_message text uid o = ([], [], .helpEcho text)) ∧
    (uid ∈ ALLOWED_LINE_USER_IDS → detect_url text = none →
      ("/a ".toList).isPrefixOf text.toList = true →
      String.mk (pyStripL (text.toList.drop 3)) ≠ "" →
      handle_message text uid o =
        handle_article (String.mk (pyStripL (text.toList.drop 3))) uid o) := by
  refine ⟨fun hu => ?_, fun hu hurl => ⟨fun hp => ?_, fun hp => ?_, fun hp => ?_⟩,
    fun hu hurl hpre => ?_, fun hu hurl hpre hne => ?_⟩
  · simp [handle_message, hu]
  · simp only [handle_message]
    rw [if_neg (fun h => h hu)]
    simp only [hurl]
    rw [if_pos hp]
    cases hsc : o.scrapeFacebook url with
    | error e => rfl
    | ok tc =>
      obtain ⟨t, c⟩ := tc
      dsimp only
      by_cases hc : c = ""
      · rw [if_pos hc]
      · rw [if_neg hc]
        cases hsum : o.summarize c <;> rfl
  · simp only [handle_message]
    rw [if_neg (fun h => h hu)]
    simp only [hurl]
    rw [if_neg (by simp [hp]), if_pos hp]
  · simp only [handle_message]
    rw [if_neg (fun h => h hu)]
    simp only [hurl]
    rw [if_neg (by simp [hp]), if_neg (by simp [hp])]
    cases hw : o.fetchWebpage url with
    | error e => rfl
    | ok tc =>
      obtain ⟨t, c⟩ := tc
      dsimp only
      cases hsum : o.summarize c <;> rfl
  · simp only [handle_message]
    rw [if_neg (fun h => h hu)]
    simp only [hurl, hpre, Bool.not_false]
    rw [if_pos trivial]
  · simp only [handle_message]
    rw [if_neg (fun h => h hu)]
    simp only [hurl, hpre, Bool.not_true]
    rw [if_neg (by simp)]
    rw [if_neg hne]

/-- Witness for C3: an unauthorized sender is denied; an authorized sender
with a Threads URL gets the not-supported reply; bare text gets the help
echo; `/a `-prefixed text reaches the article branch. -/
theorem text_classification_witness :
    handle_message "hi" "Unot" errTextOracles = ([], [], .unauthorizedReply) ∧
    handle_message "https://threads.net/p/1" demoUid errTextOracles =
      ([], [], .threadsUnsupported) ∧
    handle_message "hello" demoUid errTextOracles = ([], [], .helpEcho "hello") ∧
    handle_message "/a abc" demoUid errTextOracles =
      handle_article (String.mk (pyStripL ("/a abc".toList.drop 3))) demoUid errTextOracles :=
  ⟨(text_classification_order "hi" "Unot" "http://x" errTextOracles).1 (by decide),
   ((text_classification_order "https://threads.net/p/1" demoUid "https://threads.net/p/1"
      errTextOracles).2.1 (by decide) (by decide)).2.1 (by decide),
   (text_classification_order "hello" demoUid "http://x" errTextOracles).2.2.1
     (by decide) (by decide) (by decide),
   (text_classification_order "/a abc" demoUid "http://x" errTextOracles).2.2.2
     (by decide) (by decide) (by decide) (by decide)⟩

/-! ## C5 (corrected): essential-step failure handling -/

set_option maxRecDepth 4000 in
/-- Counterexample to C5 as stated: with a webpage fetch failing with a
250-character message, the top-level reply embeds the failure message in
full — the reply is strictly longer than the error prefix plus any 200
character preview, so the claimed truncation to 150-200 characters does
not happen. -/
theorem essential_failure_truncation_counterexample :
    handle_message "http://a.com" demoUid longFailOracles =
      ([.webpageFetch "http://a.com"], [], .urlError longFailureMsg) ∧
    renderTextReply (.urlError longFailureMsg) = "處理網址時發生錯誤：" ++ longFailureMsg ∧
    ¬ (renderTextReply (.urlError longFailureMsg)).length ≤
        "處理網址時發生錯誤：".length + 200 :=
  ⟨by decide, rfl, by decide⟩

/-- C5 as amended: when an essential step fails (webpage fetch, social
scrape, transcription — either pass — or primary summarization, on the
text paths or on the audio path), the failure propagates to the top of the
per-event handler, no Note is persisted for that event, and the error
reply embeds the complete failure message with no truncation — the
150-200-character truncation of the original claim exists only at specific
raise sites, not in the top-level reply. -/
theorem essential_failure_aborts_untruncated (text uid url e t c : String)
    (o : TextOracles) (ao : AudioOracles) (audio : List Nat)
    (raw corrected : String) :
    (uid ∈ ALLOWED_LINE_USER_IDS → detect_url text = some url →
      detect_social_platform url = some "facebook" →
      o.scrapeFacebook url = .error e →
      handle_message text uid o = ([.apifyCall url "facebook"], [], .urlError e)) ∧
    (uid ∈ ALLOWED_LINE_USER_IDS → detect_url text = some url →
      detect_social_platform url = none →
      o.fetchWebpage url = .error e →
      handle_message text uid o = ([.webpageFetch url], [], .urlError e)) ∧
    (uid ∈ ALLOWED_LINE_USER_IDS → detect_url text = some url →
      detect_social_platform url = none →
      o.fetchWebpage url = .ok (t, c) →
      o.summarize c = .error e →
      (handle_message text uid o).2 = ([], .urlError e)) ∧
    (uid ∈ ALLOWED_LINE_USER_IDS → detect_url text = none →
      ("/a ".toList).isPrefixOf text.toList = true →
      String.mk (pyStripL (text.toList.drop 3)) ≠ "" →
      o.cantoneseSummary (String.mk (pyStripL (text.toList.drop 3))) = .error e →
      handle_message text uid o = ([], [], .textError e)) ∧
    (uid ∈ ALLOWED_LINE_USER_IDS → ao.download = .ok audio →
      ao.transcribe audio = .error e →
      handle_audio_message uid ao = ([], .audioError e)) ∧
    (uid ∈ ALLOWED_LINE_USER_IDS → ao.download = .ok audio →
      ao.transcribe audio = .ok raw → ao.correct raw = .error e →
      handle_audio_message uid ao = ([], .audioError e)) ∧
    (uid ∈ ALLOWED_LINE_USER_IDS → ao.download = .ok audio →
      ao.transcribe audio = .ok raw → ao.correct raw = .ok corrected →
      ao.summaryTitle corrected = .error e →
      handle_audio_message uid ao = ([], .audioError e)) ∧
    renderTextReply (.urlError e) = "處理網址時發生錯誤：" ++ e ∧
    renderTextReply (.textError e) = "處理文字時發生錯誤：" ++ e ∧
    renderAudioReply (.audioError e) = "處理語音時發生錯誤：" ++ e := by
  refine ⟨fun hu hurl hp hsc => ?_, fun hu hurl hp hw => ?_,
    fun hu hurl hp hw hsum => ?_, fun hu hurl hpre hne hcs => ?_,
    fun hu hdl htr => ?_, fun hu hdl htr hco => ?_,
    fun hu hdl htr hco hst => ?_, rfl, rfl, rfl⟩
  · simp only [handle_message]
    rw [if_neg (fun h => h hu)]
    simp only [hurl]
    rw [if_pos hp]
    simp only [hsc]
  · simp only [handle_message]
    rw [if_neg (fun h => h hu)]
    simp only [hurl]
    rw [if_neg (by simp [hp]), if_neg (by simp [hp])]
    simp only [hw]
  · simp only [handle_message]
    rw [if_neg (fun h => h hu)]
    simp only [hurl]
    rw [if_neg (by simp [hp]), if_neg (by simp [hp])]
    simp only [hw, hsum]
  · simp only [handle_message]
    rw [if_neg (fun h => h hu)]
    simp only [hurl, hpre, Bool.not_true]
    rw [if_neg (by simp)]
    rw [if_neg hne]
    simp only [handle_article, String.toList] at hcs ⊢
    simp only [hcs]
  · simp only [handle_audio_message]
    rw [if_neg (fun h => h hu)]
    simp only [hdl, htr]
  · simp only [handle_audio_message]
    rw [if_neg (fun h => h hu)]
    simp only [hdl, htr, hco]
  · simp only [handle_audio_message]
    rw [if_neg (fun h => h hu)]
    simp only [hdl, htr, hco, hst]

/-- Witness for C5 as amended: a concrete webpage-fetch failure on the text
path and a concrete transcription failure on the audio path both abort
persistence and surface the full message. -/
theorem essential_failure_witness :
    handle_message "http://a.com" demoUid errTextOracles =
      ([.webpageFetch "http://a.com"], [], .urlError "e0") ∧
    handle_audio_message demoUid errAudioOracles = ([], .audioError "e0") :=
  ⟨(essential_failure_aborts_untruncated "http://a.com" demoUid "http://a.com"
      "e0" "" "" errTextOracles errAudioOracles [1] "" "").2.1
      (by decide) (by decide) (by decide) rfl,
   (essential_failure_aborts_untruncated "http://a.com" demoUid "http://a.com"
      "e0" "" "" errTextOracles errAudioOracles [1] "" "").2.2.2.2.1
      (by decide) rfl rfl⟩

/-! ## C7: encoding resolution priority -/

/-- C7: `fetch_webpage_content` resolves the encoding in strict priority
order — a nonempty `charset=` parameter of the content-type header wins for
every possible detector; otherwise the first embedded charset declaration
found in the first 2048 bytes is used; otherwise statistical detection over
the first 10000 bytes supplies the encoding, with `utf-8` as default when
detection yields nothing — and after decoding, more than 50 control
characters or more than 50 replacement characters among the first 1000
decoded characters (or a decode error) forces the lossy never-raising
UTF-8 fallback decode. -/
theorem encoding_resolution_priority (ctL : List Char) (bytes g : List Nat)
    (e : String) (text : String) (detect : List Nat → Option String)
    (decode : List Char → List Nat → Option String)
    (lossyUtf8 : List Nat → String) :
    (isSubstrL ("charset=".toList) ctL = true → extractHeaderCharset ctL ≠ [] →
      chosenEncoding ctL bytes detect = extractHeaderCharset ctL) ∧
    (isSubstrL ("charset=".toList) ctL = false →
      metaScan (bytes.take 2048) = some g → asciiIgnore g ≠ [] →
      chosenEncoding ctL bytes detect = asciiIgnore g) ∧
    (isSubstrL ("charset=".toList) ctL = false →
      metaScan (bytes.take 2048) = none → detect (bytes.take 10000) = some e →
      chosenEncoding ctL bytes detect = e.toList) ∧
    (isSubstrL ("charset=".toList) ctL = false →
      metaScan (bytes.take 2048) = none → detect (bytes.take 10000) = none →
      chosenEncoding ctL bytes detect = "utf-8".toList) ∧
    (decode (chosenEncoding ctL bytes detect) bytes = some text →
      50 < controlCount text ∨ 50 < replacementCount text →
      decodeWebpage ctL bytes detect decode lossyUtf8 = lossyUtf8 bytes) ∧
    (decode (chosenEncoding ctL bytes detect) bytes = some text →
      controlCount text ≤ 50 → replacementCount text ≤ 50 →
      decodeWebpage ctL bytes detect decode lossyUtf8 = text) ∧
    (decode (chosenEncoding ctL bytes detect) bytes = none →
      decodeWebpage ctL bytes detect decode lossyUtf8 = lossyUtf8 bytes) := by
  refine ⟨fun h1 h2 => ?_, fun h1 hm hg => ?_, fun h1 hm hd => ?_,
    fun h1 hm hd => ?_, fun hdec hover => ?_, fun hdec hc hr => ?_, fun hdec => ?_⟩
  · simp only [chosenEncoding, h1, if_true]
    rw [if_neg h2, if_neg h2]
  · simp only [chosenEncoding, h1, Bool.false_eq_true, if_false, ite_false,
      if_pos rfl, hm, if_true, ite_true]
    rw [if_neg hg]
  · simp only [chosenEncoding, h1, Bool.false_eq_true, if_false, ite_false,
      if_pos rfl, hm, hd, if_true, ite_true]
  · simp only [chosenEncoding, h1, Bool.false_eq_true, if_false, ite_false,
      if_pos rfl, hm, hd, if_true, ite_true]
  · have hb : (50 < controlCount text || 50 < replacementCount text) = true := by
      rcases hover with h | h <;> simp [h]
    simp only [decodeWebpage, hdec, hb, if_true]
  · have hb : (50 < controlCount text || 50 < replacementCount text) = false := by
      simp only [Bool.or_eq_false_iff, decide_eq_false_iff_not, not_lt]
      exact ⟨hc, hr⟩
    simp only [decodeWebpage, hdec, hb, Bool.false_eq_true, if_false, ite_false]
  · simp only [decodeWebpage, hdec]

/-- Witness for C7 at the spec's example: bytes declaring `charset=big5`
in the content-type header resolve to `big5` even though the statistical
detector would prefer another encoding. -/
theorem encoding_resolution_witness :
    chosenEncoding ("text/html; charset=big5".toList) [] (fun _ => some "gbk") =
      "big5".toList :=
  (encoding_resolution_priority ("text/html; charset=big5".toList) [] [] "" ""
      (fun _ => some "gbk") (fun _ _ => none) (fun _ => "")).1
    (by decide) (by decide)

/-! ## C8: structured model-output fence recovery -/

/-- C8: every structured-output model call strips a leading fence line and
a trailing fence when the stripped reply starts with a fence: a fenced
block containing `{"title":"T","summary":"S"}` parses to that record; a
reply that still fails to parse after fence stripping surfaces an error to
the caller, and an `ok` result can only come from a successful parse,
never from a silent default. -/
theorem model_output_fence_recovery (loads : String → Option (String × String))
    (content : String) (r : String × String) (rest : List Char) :
    (loads "\x7b\"title\":\"T\",\"summary\":\"S\"\x7d\n" = some ("T", "S") →
      parse_model_json loads
          "```json\n\x7b\"title\":\"T\",\"summary\":\"S\"\x7d\n```" =
        .ok ("T", "S")) ∧
    (parse_model_json loads content = .ok r → ∃ s', loads s' = some r) ∧
    (("```".toList).isPrefixOf (pyStripS content).toList = false →
      loads (pyStripS content) = none →
      parse_model_json loads content = .error .malformed) ∧
    (("```".toList).isPrefixOf (pyStripS content).toList = true →
      splitOnceNl (pyStripS content).toList = some rest →
      loads (String.mk (rsplitBefore ("```".toList) rest)) = none →
      parse_model_json loads content = .error .malformed) := by
  refine ⟨fun h => ?_, fun h => ?_, fun hp hl => ?_, fun hp hnl hl => ?_⟩
  · have e1 : parse_model_json loads
        "```json\n\x7b\"title\":\"T\",\"summary\":\"S\"\x7d\n```" =
        match loads "\x7b\"title\":\"T\",\"summary\":\"S\"\x7d\n" with
        | some v => Except.ok v
        | none => Except.error ParseError.malformed := rfl
    rw [e1, h]
  · unfold parse_model_json at h
    by_cases hp : ("```".toList).isPrefixOf (pyStripS content).toList = true
    · rw [if_pos hp] at h
      rcases hsp : splitOnceNl (pyStripS content).toList with _ | rest2
      · rw [hsp] at h
        exact absurd h (by simp)
      · rw [hsp] at h
        dsimp only at h
        rcases hld : loads (String.mk (rsplitBefore ("```".toList) rest2)) with _ | v
        · rw [hld] at h
          exact absurd h (by simp)
        · rw [hld] at h
          obtain rfl : v = r := by simpa using h
          exact ⟨_, hld⟩
    · rw [if_neg hp] at h
      rcases hld : loads (pyStripS content) with _ | v
      · rw [hld] at h
        exact absurd h (by simp)
      · rw [hld] at h
        obtain rfl : v = r := by simpa using h
        exact ⟨_, hld⟩
  · have hp' : ¬ (("```".toList).isPrefixOf (pyStripS content).toList = true) := by
      rw [hp]; exact Bool.false_ne_true
    unfold parse_model_json
    rw [if_neg hp', hl]
  · unfold parse_model_json
    rw [if_pos hp, hnl]
    dsimp only
    rw [hl]

/-- Witness for C8 at the spec's example fenced reply, with a concrete
parser accepting exactly the stripped body. -/
theorem model_output_fence_witness :
    parse_model_json exampleLoads
        "```json\n\x7b\"title\":\"T\",\"summary\":\"S\"\x7d\n```" = .ok ("T", "S") :=
  (model_output_fence_recovery exampleLoads "" ("T", "S") []).1 (by decide)

end LineSecretary
